import Mathlib

/-!
Shallow embedding of the domain core of the `prueba-LITE-THINKING` repository:
entities `Currency`, `Money`, `InventoryItem`, `Product` and the domain
services `ProductRegistrationService` and `InventoryManagementService`,
translated from `src/domain/src/domain/`.  Python exceptions are modelled as
an error type returned through `Except`; `Decimal` amounts are modelled as
exact rationals; Python dicts of prices are modelled as insertion-ordered
association lists.
-/

namespace Domain

/-- Python `str.strip()` on ASCII text: drop leading and trailing
whitespace characters. -/
def pyStrip (s : String) : String :=
  ⟨((s.data.dropWhile Char.isWhitespace).reverse.dropWhile Char.isWhitespace).reverse⟩

/-- Python `str.upper()` on ASCII text: upper-case every character. -/
def pyUpper (s : String) : String :=
  ⟨s.data.map Char.toUpper⟩

/-- Python truthiness test `not value or not value.strip()` for a string:
true exactly when the string is empty or all-whitespace. -/
def pyBlank (s : String) : Bool :=
  (pyStrip s).data.isEmpty

/-- Errors raised by the domain layer.  The first four constructors mirror the
classes of `src/domain/src/domain/exceptions/errors.py`; `valueError` models
the Python builtin `ValueError`, which `Currency.from_code` raises directly. -/
inductive Err where
  | invalidCompany (msg : String)
  | invalidProduct (msg : String)
  | invalidPrice (msg : String)
  | invalidInventory (msg : String)
  | valueError (msg : String)
deriving DecidableEq, Repr

/-- Whether an error is an instance of one of the classes defined in the
repository's `errors.py` module (all of which derive `DomainError`), as
opposed to a Python builtin exception. -/
def Err.isDomainError : Err → Bool
  | .invalidCompany _ => true
  | .invalidProduct _ => true
  | .invalidPrice _ => true
  | .invalidInventory _ => true
  | .valueError _ => false

/-- The closed currency enumeration of `currency.py`. -/
inductive Currency where
  | USD
  | EUR
  | COP
deriving DecidableEq, Repr

/-- Currency.from_code: normalize by trimming and upper-casing, then match a
member of the enumeration by value; an unrecognized code raises the Python
builtin ValueError with message "Unsupported currency code: ...". -/
def Currency.fromCode (code : String) : Except Err Currency :=
  let normalized := pyUpper (pyStrip code)
  if normalized = "USD" then .ok .USD
  else if normalized = "EUR" then .ok .EUR
  else if normalized = "COP" then .ok .COP
  else .error (.valueError ("Unsupported currency code: " ++ normalized))

/-- Round a rational to 2 fractional digits with ROUND_HALF_UP semantics
(Python decimal: ties go away from zero), as `Decimal.quantize` does in
`Money._normalize_amount`. -/
def roundHalfUp2 (q : ℚ) : ℚ :=
  if 0 ≤ q then ((⌊q * 100 + 1/2⌋ : ℤ) : ℚ) / 100
  else -(((⌊-(q * 100) + 1/2⌋ : ℤ) : ℚ) / 100)

/-- Input to the Money constructor: a parsed exact decimal, or a value that
`Decimal(value)` fails to parse (raising InvalidOperation/TypeError). -/
inductive DecInput where
  | num (q : ℚ)
  | invalid
deriving DecidableEq, Repr

/-- Immutable Money value of `money.py` (after `__post_init__` assigned the
normalized amount). -/
structure Money where
  amount : ℚ
  currency : Currency
deriving DecidableEq, Repr

/-- Money._normalize_amount: parse to Decimal (failing with InvalidPriceError
"Invalid price amount") and quantize to 2 decimals with ROUND_HALF_UP. -/
def Money.normalizeAmount : DecInput → Except Err ℚ
  | .invalid => .error (.invalidPrice "Invalid price amount")
  | .num q => .ok (roundHalfUp2 q)

/-- Money construction (`__post_init__`): normalize the amount, fail with
InvalidPriceError when the normalized amount is ≤ 0, otherwise store the
normalized amount. -/
def Money.make (v : DecInput) (c : Currency) : Except Err Money :=
  match Money.normalizeAmount v with
  | .error e => .error e
  | .ok a =>
    if a ≤ 0 then .error (.invalidPrice "Amount must be greater than zero")
    else .ok ⟨a, c⟩

/-- Money.add: require matching currency (else InvalidPriceError), then
construct `Money(self.amount + other.amount, self.currency)`, which re-runs
the validating constructor. -/
def Money.add (a b : Money) : Except Err Money :=
  if a.currency ≠ b.currency then
    .error (.invalidPrice "Cannot add amounts with different currencies")
  else Money.make (.num (a.amount + b.amount)) a.currency

/-- A Money value as produced by the validating constructor: its stored
amount is a fixed point of the 2-decimal normalization and strictly
positive. -/
def Money.Valid (m : Money) : Prop :=
  0 < m.amount ∧ roundHalfUp2 m.amount = m.amount

/-- Immutable inventory row of `inventory_item.py`. -/
structure InventoryItem where
  company_nit : String
  product_code : String
  quantity : Int
deriving DecidableEq, Repr

/-- InventoryItem construction (`__post_init__`): company_nit and
product_code must be non-empty and non-blank, quantity must be ≥ 0; the
original (untrimmed) strings are stored. -/
def InventoryItem.make (nit code : String) (qty : Int) : Except Err InventoryItem :=
  if pyBlank nit then .error (.invalidInventory "Company NIT is required")
  else if pyBlank code then .error (.invalidInventory "Product code is required")
  else if qty < 0 then .error (.invalidInventory "Quantity cannot be negative")
  else .ok ⟨nit, code, qty⟩

/-- InventoryItem.increase: require delta > 0 (else InvalidInventoryError),
then build a new InventoryItem through the validating constructor with
quantity + delta. -/
def InventoryItem.increase (it : InventoryItem) (delta : Int) : Except Err InventoryItem :=
  if delta ≤ 0 then .error (.invalidInventory "Increment must be positive")
  else InventoryItem.make it.company_nit it.product_code (it.quantity + delta)

/-- InventoryItem.decrease: require delta > 0, then delta ≤ quantity (else
"Insufficient stock"), then build a new item with quantity - delta. -/
def InventoryItem.decrease (it : InventoryItem) (delta : Int) : Except Err InventoryItem :=
  if delta ≤ 0 then .error (.invalidInventory "Decrement must be positive")
  else if it.quantity < delta then .error (.invalidInventory "Insufficient stock")
  else InventoryItem.make it.company_nit it.product_code (it.quantity - delta)

/-- An InventoryItem as the validating constructor produces it: non-blank
keys and non-negative quantity. -/
def InventoryItem.Valid (it : InventoryItem) : Prop :=
  pyBlank it.company_nit = false ∧ pyBlank it.product_code = false ∧ 0 ≤ it.quantity

/-- A value stored under a currency key in the raw `prices` dict handed to
the Product constructor: either a Money instance or some other Python value
(failing the `isinstance(price, Money)` check). -/
inductive PriceValue where
  | money (m : Money)
  | notMoney
deriving DecidableEq, Repr

/-- Immutable Product of `product.py` (fields as `__post_init__` leaves
them: trimmed strings, normalized upper-case price keys in insertion
order). -/
structure Product where
  code : String
  name : String
  features : List String
  prices : List (String × Money)
  company_nit : String
deriving DecidableEq, Repr

/-- The `_normalize_text` helper of `product.py`: trim; if the result is
empty raise InvalidProductError "<field> is required", else return it. -/
def normalizeText (value fieldName : String) : Except Err String :=
  let normalized := pyStrip value
  if normalized.data.isEmpty then .error (.invalidProduct (fieldName ++ " is required"))
  else .ok normalized

/-- The `_normalize_features` helper: normalize each feature in order with
field name "Feature", failing on the first blank one. -/
def normalizeFeatures : List String → Except Err (List String)
  | [] => .ok []
  | f :: rest =>
    match normalizeText f "Feature" with
    | .error e => .error e
    | .ok nf =>
      match normalizeFeatures rest with
      | .error e => .error e
      | .ok nrest => .ok (nf :: nrest)

/-- The price-normalization loop of `Product.__post_init__`: iterate the
raw entries in insertion order, for each one first requiring a Money
instance, then rejecting a duplicate of the trimmed upper-cased key against
the accumulator, then inserting. -/
def normalizePrices : List (String × PriceValue) → List (String × Money) →
    Except Err (List (String × Money))
  | [], acc => .ok acc
  | (currencyCode, price) :: rest, acc =>
    match price with
    | .notMoney => .error (.invalidPrice "Price must be a Money object")
    | .money m =>
      let codeKey := pyUpper (pyStrip currencyCode)
      if acc.any (fun p => p.1 == codeKey) then
        .error (.invalidPrice "Duplicated price for currency is not allowed")
      else normalizePrices rest (acc ++ [(codeKey, m)])

/-- Product construction (`__post_init__`): normalize code, name and
features, require a non-empty prices dict (else InvalidPriceError), run the
price-normalization loop, and finally normalize company_nit. -/
def Product.make (code name : String) (features : List String)
    (prices : List (String × PriceValue)) (companyNit : String) : Except Err Product :=
  match normalizeText code "Code" with
  | .error e => .error e
  | .ok normalizedCode =>
    match normalizeText name "Name" with
    | .error e => .error e
    | .ok normalizedName =>
      match normalizeFeatures features with
      | .error e => .error e
      | .ok normalizedFeatures =>
        if prices.isEmpty then .error (.invalidPrice "At least one price is required")
        else
          match normalizePrices prices [] with
          | .error e => .error e
          | .ok normalizedPrices =>
            match normalizeText companyNit "Company NIT" with
            | .error e => .error e
            | .ok normalizedCompany =>
              .ok ⟨normalizedCode, normalizedName, normalizedFeatures,
                   normalizedPrices, normalizedCompany⟩

/-- Product.price_for: look up the trimmed upper-cased key in the normalized
prices; a missing key raises InvalidPriceError "Price is not defined
for <key>". -/
def Product.priceFor (p : Product) (currencyCode : String) : Except Err Money :=
  let key := pyUpper (pyStrip currencyCode)
  match p.prices.find? (fun q => q.1 == key) with
  | some q => .ok q.2
  | none => .error (.invalidPrice ("Price is not defined for " ++ key))

/-- ProductRegistrationService.register: (1) if the company-repository
existence check fails, raise InvalidCompanyError; (2) construct the Product,
catching only InvalidProductError and InvalidCompanyError and re-raising
them as InvalidProductError with the "Failed to register product: " prefix;
any other exception (notably InvalidPriceError) propagates unchanged. -/
def register (companyExists : String → Bool) (code name : String)
    (features : List String) (prices : List (String × PriceValue))
    (companyNit : String) : Except Err Product :=
  if ¬ companyExists companyNit then
    .error (.invalidCompany
      ("Cannot register product: Company with NIT '" ++ companyNit ++ "' does not exist"))
  else
    match Product.make code name features prices companyNit with
    | .ok product => .ok product
    | .error (.invalidProduct msg) =>
      .error (.invalidProduct ("Failed to register product: " ++ msg))
    | .error (.invalidCompany msg) =>
      .error (.invalidProduct ("Failed to register product: " ++ msg))
    | .error e => .error e

/-- The three repository ports held by InventoryManagementService:
`company_repository.exists`, `product_repository.exists` (code, company
NIT) and `inventory_repository.find` (company NIT, product code).  `save`
is modelled by returning the list of items the call passed to
`inventory_repository.save`, in order. -/
structure InvRepos where
  companyExists : String → Bool
  productExists : String → String → Bool
  invFind : String → String → Option InventoryItem

/-- InventoryManagementService.add_to_inventory: company must exist (else
InvalidCompanyError), product must exist for the company (else
InvalidProductError); then either `increase` the found item or construct a
fresh one with the requested quantity, and save it.  The second component
is the list of saved items (empty on every failure path). -/
def addToInventory (s : InvRepos) (companyNit productCode : String) (quantity : Int) :
    Except Err InventoryItem × List InventoryItem :=
  if ¬ s.companyExists companyNit then
    (.error (.invalidCompany
      ("Cannot manage inventory: Company with NIT '" ++ companyNit ++ "' does not exist")), [])
  else if ¬ s.productExists productCode companyNit then
    (.error (.invalidProduct
      ("Cannot manage inventory: Product '" ++ productCode ++
       "' does not exist for company '" ++ companyNit ++ "'")), [])
  else
    match s.invFind companyNit productCode with
    | some existing =>
      match existing.increase quantity with
      | .ok updatedItem => (.ok updatedItem, [updatedItem])
      | .error e => (.error e, [])
    | none =>
      match InventoryItem.make companyNit productCode quantity with
      | .ok updatedItem => (.ok updatedItem, [updatedItem])
      | .error e => (.error e, [])

/-- InventoryManagementService.remove_from_inventory: company must exist
(else InvalidCompanyError); the inventory item must be found (else
InvalidProductError "... is not in inventory for company ..."); then
`decrease` and save.  The product repository is never consulted. -/
def removeFromInventory (s : InvRepos) (companyNit productCode : String) (quantity : Int) :
    Except Err InventoryItem × List InventoryItem :=
  if ¬ s.companyExists companyNit then
    (.error (.invalidCompany
      ("Cannot manage inventory: Company with NIT '" ++ companyNit ++ "' does not exist")), [])
  else
    match s.invFind companyNit productCode with
    | none =>
      (.error (.invalidProduct
        ("Product '" ++ productCode ++ "' is not in inventory for company '" ++
         companyNit ++ "'")), [])
    | some existing =>
      match existing.decrease quantity with
      | .ok updatedItem => (.ok updatedItem, [updatedItem])
      | .error e => (.error e, [])

/-- Effect of `inventory_repository.save` as an upsert keyed on
(company_nit, product_code): after saving `item`, `find` returns `item` for
its own pair and is unchanged elsewhere. -/
def upsert (find : String → String → Option InventoryItem) (item : InventoryItem) :
    String → String → Option InventoryItem :=
  fun nit code =>
    if nit = item.company_nit ∧ code = item.product_code then some item
    else find nit code

instance {ε α : Type} [DecidableEq ε] [DecidableEq α] : DecidableEq (Except ε α) := fun x y =>
  match x, y with
  | .error a, .error b =>
    if h : a = b then .isTrue (congrArg Except.error h)
    else .isFalse (fun hc => h (Except.error.inj hc))
  | .ok a, .ok b =>
    if h : a = b then .isTrue (congrArg Except.ok h)
    else .isFalse (fun hc => h (Except.ok.inj hc))
  | .error _, .ok _ => .isFalse (fun hc => Except.noConfusion hc)
  | .ok _, .error _ => .isFalse (fun hc => Except.noConfusion hc)

/-- Modelled from the spec's words for comparison with `Product.make`
(refinement direction of the validation-order claim): walk the price entries
in insertion order against a set of already-seen normalized keys, requiring
a Money value first and a fresh key second, both failing with
InvalidPriceError. -/
def specCheckPrices : List (String × PriceValue) → List String →
    Except Err (List (String × Money))
  | [], _ => .ok []
  | (k, v) :: rest, seen =>
    match v with
    | .notMoney => .error (.invalidPrice "Price must be a Money object")
    | .money m =>
      if pyUpper (pyStrip k) ∈ seen then
        .error (.invalidPrice "Duplicated price for currency is not allowed")
      else
        match specCheckPrices rest (pyUpper (pyStrip k) :: seen) with
        | .error e => .error e
        | .ok tail => .ok ((pyUpper (pyStrip k), m) :: tail)

/-- Modelled from the spec's words for comparison with `Product.make`: the
ordered validation sequence of the product constructor — code non-empty,
name non-empty, every feature non-empty, prices non-empty (InvalidPriceError),
then per entry in order a Money-instance check followed by a duplicate-key
check (both InvalidPriceError), and finally company_nit non-empty; all other
failures are InvalidProductError. -/
def productSpecOrdered (code name : String) (features : List String)
    (prices : List (String × PriceValue)) (companyNit : String) : Except Err Product :=
  if pyBlank code then .error (.invalidProduct "Code is required")
  else if pyBlank name then .error (.invalidProduct "Name is required")
  else if features.any pyBlank then .error (.invalidProduct "Feature is required")
  else if prices.isEmpty then .error (.invalidPrice "At least one price is required")
  else
    match specCheckPrices prices [] with
    | .error e => .error e
    | .ok ps =>
      if pyBlank companyNit then .error (.invalidProduct "Company NIT is required")
      else .ok ⟨pyStrip code, pyStrip name, features.map pyStrip, ps, pyStrip companyNit⟩

end Domain

namespace Domain

theorem roundHalfUp2_intDiv (n : ℤ) : roundHalfUp2 ((n : ℚ) / 100) = (n : ℚ) / 100 := by
  unfold roundHalfUp2
  have h100 : ((n : ℚ) / 100) * 100 = (n : ℚ) := by field_simp
  rcases le_or_lt 0 n with hn | hn
  · rw [if_pos (by positivity)]
    rw [h100, Int.floor_int_add]
    norm_num
  · rw [if_neg (by
      push_neg
      refine div_neg_of_neg_of_pos ?_ (by norm_num)
      exact_mod_cast hn)]
    rw [show -(((n : ℚ) / 100) * 100) = (((-n : ℤ) : ℚ)) by push_cast; field_simp]
    rw [Int.floor_int_add]
    push_cast
    ring_nf

theorem money_valid_form (m : Money) (h : m.Valid) :
    ∃ n : ℤ, 0 < n ∧ m.amount = (n : ℚ) / 100 := by
  obtain ⟨hpos, hfix⟩ := h
  refine ⟨⌊m.amount * 100 + 1/2⌋, ?_, ?_⟩
  · by_contra hle
    push_neg at hle
    have : roundHalfUp2 m.amount ≤ 0 := by
      unfold roundHalfUp2
      rw [if_pos hpos.le]
      have : ((⌊m.amount * 100 + 1/2⌋ : ℤ) : ℚ) ≤ 0 := by exact_mod_cast hle
      linarith [div_nonpos_of_nonpos_of_nonneg this (by norm_num : (0:ℚ) ≤ 100)]
    rw [hfix] at this
    linarith
  · conv_lhs => rw [← hfix]
    unfold roundHalfUp2
    rw [if_pos hpos.le]

theorem money_make_intDiv (n : ℤ) (hn : 0 < n) (c : Currency) :
    Money.make (.num ((n : ℚ) / 100)) c = .ok ⟨(n : ℚ) / 100, c⟩ := by
  simp only [Money.make, Money.normalizeAmount]
  rw [roundHalfUp2_intDiv]
  rw [if_neg (not_le.mpr (by positivity))]

theorem money_add_ok (a b : Money) (ha : a.Valid) (hb : b.Valid)
    (hcur : a.currency = b.currency) :
    a.add b = .ok ⟨a.amount + b.amount, a.currency⟩ := by
  obtain ⟨n, hn, han⟩ := money_valid_form a ha
  obtain ⟨m, hm, hbm⟩ := money_valid_form b hb
  unfold Money.add
  rw [if_neg (by simp [hcur])]
  rw [han, hbm, div_add_div_same, ← Int.cast_add]
  exact money_make_intDiv (n + m) (by positivity) a.currency

/-- C2: Money construction first rounds the amount to 2 fractional digits with
round-half-up (an unparseable amount fails with InvalidPriceError "Invalid
price amount"); a rounded result ≤ 0 fails with InvalidPriceError "Amount must
be greater than zero", a rounded result > 0 succeeds and stores exactly the
rounded value; 0.004 rounds to 0.00 and 0.005 rounds to 0.01. -/
theorem money_construction_spec (q : ℚ) (c : Currency) :
    (roundHalfUp2 q ≤ 0 →
      Money.make (.num q) c = .error (.invalidPrice "Amount must be greater than zero")) ∧
    (0 < roundHalfUp2 q → Money.make (.num q) c = .ok ⟨roundHalfUp2 q, c⟩) ∧
    Money.make .invalid c = .error (.invalidPrice "Invalid price amount") ∧
    roundHalfUp2 (4/1000) = 0 ∧ roundHalfUp2 (5/1000) = 1/100 := by
  refine ⟨?_, ?_, rfl, ?_, ?_⟩
  · intro h
    simp only [Money.make, Money.normalizeAmount]
    rw [if_pos h]
  · intro h
    simp only [Money.make, Money.normalizeAmount]
    rw [if_neg (not_le.mpr h)]
  · norm_num [roundHalfUp2]
  · norm_num [roundHalfUp2]

/-- C2 witness: the amount 0.005 rounds up to 0.01 and is accepted, while
0.004 rounds down to 0.00 and is rejected. -/
theorem money_construction_spec_witness :
    Money.make (.num (5/1000)) .USD = .ok ⟨1/100, .USD⟩ ∧
    Money.make (.num (4/1000)) .USD
      = .error (.invalidPrice "Amount must be greater than zero") := by
  constructor
  · have h := (money_construction_spec (5/1000) .USD).2.1 (by norm_num [roundHalfUp2])
    rw [h]
    norm_num [roundHalfUp2]
  · exact (money_construction_spec (4/1000) .USD).1 (by norm_num [roundHalfUp2])

/-- C8: for validly constructed Money values, `add` on matching currencies
succeeds with the summed amount and is commutative and associative; on
differing currencies it fails with InvalidPriceError. -/
theorem money_add_laws (a b c : Money) (ha : a.Valid) (hb : b.Valid) (hc : c.Valid) :
    (a.currency = b.currency →
      a.add b = .ok ⟨a.amount + b.amount, a.currency⟩ ∧ a.add b = b.add a) ∧
    (a.currency = b.currency → b.currency = c.currency →
      (a.add b).bind (fun s => s.add c) = (b.add c).bind (fun s => a.add s)) ∧
    (a.currency ≠ b.currency →
      a.add b = .error (.invalidPrice "Cannot add amounts with different currencies")) := by
  refine ⟨?_, ?_, ?_⟩
  · intro hcur
    refine ⟨money_add_ok a b ha hb hcur, ?_⟩
    rw [money_add_ok a b ha hb hcur, money_add_ok b a hb ha hcur.symm]
    rw [add_comm, hcur]
  · intro hab hbc
    obtain ⟨n, hn, han⟩ := money_valid_form a ha
    obtain ⟨m, hm, hbm⟩ := money_valid_form b hb
    obtain ⟨k, hk, hck⟩ := money_valid_form c hc
    rw [money_add_ok a b ha hb hab, money_add_ok b c hb hc hbc]
    show Money.add ⟨a.amount + b.amount, a.currency⟩ c
      = Money.add a ⟨b.amount + c.amount, b.currency⟩
    have h1 : Money.Valid ⟨a.amount + b.amount, a.currency⟩ := by
      constructor
      · exact add_pos ha.1 hb.1
      · show roundHalfUp2 (a.amount + b.amount) = a.amount + b.amount
        rw [han, hbm, div_add_div_same, ← Int.cast_add, roundHalfUp2_intDiv]
    have h2 : Money.Valid ⟨b.amount + c.amount, b.currency⟩ := by
      constructor
      · exact add_pos hb.1 hc.1
      · show roundHalfUp2 (b.amount + c.amount) = b.amount + c.amount
        rw [hbm, hck, div_add_div_same, ← Int.cast_add, roundHalfUp2_intDiv]
    rw [money_add_ok _ c h1 hc (by simpa using hab.trans hbc),
        money_add_ok a _ ha h2 (by simpa using hab)]
    simp [add_assoc]
  · intro hne
    unfold Money.add
    rw [if_pos hne]

/-- C8 witness: 1 USD + 2 USD = 3 USD, while adding USD to EUR fails. -/
theorem money_add_laws_witness :
    Money.add ⟨1, .USD⟩ ⟨2, .USD⟩ = .ok ⟨3, .USD⟩ ∧
    Money.add ⟨1, .USD⟩ ⟨2, .EUR⟩
      = .error (.invalidPrice "Cannot add amounts with different currencies") := by
  have hv1 : Money.Valid ⟨1, .USD⟩ := ⟨by norm_num, by norm_num [roundHalfUp2]⟩
  have hv2 : Money.Valid ⟨2, .USD⟩ := ⟨by norm_num, by norm_num [roundHalfUp2]⟩
  have hv2e : Money.Valid ⟨2, .EUR⟩ := ⟨by norm_num, by norm_num [roundHalfUp2]⟩
  constructor
  · have h := ((money_add_laws ⟨1, .USD⟩ ⟨2, .USD⟩ ⟨2, .USD⟩ hv1 hv2 hv2).1 rfl).1
    rw [h]
    norm_num
  · exact (money_add_laws ⟨1, .USD⟩ ⟨2, .EUR⟩ ⟨2, .EUR⟩ hv1 hv2e hv2e).2.2 (by simp)

end Domain

namespace Domain

theorem normalizeText_eq (v f : String) :
    normalizeText v f = if pyBlank v then .error (.invalidProduct (f ++ " is required"))
      else .ok (pyStrip v) := rfl

theorem normalizeFeatures_eq (fs : List String) :
    normalizeFeatures fs = if fs.any pyBlank then .error (.invalidProduct "Feature is required")
      else .ok (fs.map pyStrip) := by
  induction fs with
  | nil => rfl
  | cons f rest ih =>
    simp only [normalizeFeatures, normalizeText_eq, List.any_cons, List.map_cons]
    by_cases hf : pyBlank f
    · simp [hf]
    · by_cases hr : rest.any pyBlank <;> simp [hf, hr, ih]

theorem normalizePrices_eq (l : List (String × PriceValue)) :
    ∀ (acc : List (String × Money)) (seen : List String),
      (∀ k, k ∈ seen ↔ k ∈ acc.map Prod.fst) →
      normalizePrices l acc = (match specCheckPrices l seen with
        | .error e => .error e
        | .ok tail => .ok (acc ++ tail)) := by
  induction l with
  | nil =>
    intro acc seen h
    simp [normalizePrices, specCheckPrices]
  | cons p rest ih =>
    intro acc seen h
    obtain ⟨k, v⟩ := p
    cases v with
    | notMoney => simp [normalizePrices, specCheckPrices]
    | money m =>
      simp only [normalizePrices, specCheckPrices]
      by_cases hmem : pyUpper (pyStrip k) ∈ seen
      · have hany : acc.any (fun p => p.1 == pyUpper (pyStrip k)) = true := by
          rw [List.any_eq_true]
          obtain ⟨q, hq, hqk⟩ := List.mem_map.mp ((h _).mp hmem)
          exact ⟨q, hq, by simp [hqk]⟩
        simp [hany, hmem]
      · have hany : acc.any (fun p => p.1 == pyUpper (pyStrip k)) = false := by
          rw [List.any_eq_false]
          intro q hq
          simp only [beq_iff_eq]
          intro hqk
          exact hmem ((h _).mpr (List.mem_map.mpr ⟨q, hq, hqk⟩))
        rw [ih (acc ++ [(pyUpper (pyStrip k), m)]) (pyUpper (pyStrip k) :: seen) ?_]
        · simp only [hany, hmem]
          cases hsp : specCheckPrices rest (pyUpper (pyStrip k) :: seen) <;> simp
        · intro k'
          simp [List.mem_append, List.mem_cons, h k', or_comm]

/-- C6 (amended): the Product constructor validates in the order code →
name → features → prices non-empty → per price entry in insertion order a
Money-instance check then a duplicate-normalized-key check → company_nit;
all failures raise InvalidProductError except the three price-related ones
— empty prices, non-Money price value, and duplicate normalized currency
key — which raise InvalidPriceError.  Stated as: the source constructor
equals the ordered validation function written from those words. -/
theorem product_make_ordered (code name : String) (features : List String)
    (prices : List (String × PriceValue)) (companyNit : String) :
    Product.make code name features prices companyNit
      = productSpecOrdered code name features prices companyNit := by
  simp only [Product.make, productSpecOrdered, normalizeText_eq, normalizeFeatures_eq]
  by_cases h1 : pyBlank code
  · simp [h1]
  · by_cases h2 : pyBlank name
    · simp [h1, h2]
    · by_cases h3 : features.any pyBlank
      · simp [h1, h2, h3]
      · by_cases h4 : prices.isEmpty
        · simp [h1, h2, h3, h4]
        · rw [normalizePrices_eq prices [] [] (by simp)]
          cases hsp : specCheckPrices prices [] with
          | error e => simp [h1, h2, h3, h4, hsp]
          | ok tail => by_cases h5 : pyBlank companyNit <;> simp [h1, h2, h3, h4, hsp, h5]

/-- C6 counterexample: two price keys normalizing to the same currency code
("usd" and "USD") make construction fail with InvalidPriceError, not with
InvalidProductError as the claim states. -/
theorem product_duplicate_currency_price_error :
    Product.make "P" "N" [] [("usd", .money ⟨1, .USD⟩), ("USD", .money ⟨1, .USD⟩)] "NIT"
      = .error (.invalidPrice "Duplicated price for currency is not allowed") ∧
    Product.make "P" "N" [] [("usd", .money ⟨1, .USD⟩), ("USD", .money ⟨1, .USD⟩)] "NIT"
      ≠ .error (.invalidProduct "Duplicated price for currency is not allowed") := by
  constructor <;> decide

/-- C4: when the company repository reports the company as missing, register
fails with InvalidCompanyError whose message ends in "does not exist", and
the outcome is the same whatever product data is passed — no Product value
is ever constructed. -/
theorem register_missing_company (repo : String → Bool) (code name : String)
    (features : List String) (prices : List (String × PriceValue)) (companyNit : String)
    (h : repo companyNit = false) :
    register repo code name features prices companyNit
      = .error (.invalidCompany
          ("Cannot register product: Company with NIT '" ++ companyNit ++ "' does not exist")) ∧
    (∀ (code' name' : String) (features' : List String)
        (prices' : List (String × PriceValue)),
      register repo code' name' features' prices' companyNit
        = register repo code name features prices companyNit) := by
  have hbase : ∀ (c n : String) (fs : List String) (ps : List (String × PriceValue)),
      register repo c n fs ps companyNit
        = .error (.invalidCompany
            ("Cannot register product: Company with NIT '" ++ companyNit ++ "' does not exist")) := by
    intro c n fs ps
    unfold register
    rw [if_pos (by simp [h])]
  exact ⟨hbase code name features prices,
    fun c' n' fs' ps' => by rw [hbase, hbase]⟩

/-- C4 witness: registering a product for the never-registered company
999999999 fails with the InvalidCompanyError "does not exist" message. -/
theorem register_missing_company_witness :
    register (fun _ => false) "PROD001" "N" [] [("USD", .money ⟨1, .USD⟩)] "999999999"
      = .error (.invalidCompany
          "Cannot register product: Company with NIT '999999999' does not exist") := by
  have h := (register_missing_company (fun _ => false) "PROD001" "N" []
    [("USD", .money ⟨1, .USD⟩)] "999999999" rfl).1
  rw [h]
  decide

/-- C5 (amended): when the company exists, InvalidProductError and
InvalidCompanyError failures of the Product constructor are re-raised as
InvalidProductError with the "Failed to register product: " prefix followed
by the original message, while InvalidPriceError failures (empty prices,
non-Money price value, duplicate currency key) propagate unwrapped; a valid
product is returned as-is. -/
theorem register_wrapping (repo : String → Bool) (code name : String)
    (features : List String) (prices : List (String × PriceValue)) (companyNit : String)
    (hex : repo companyNit = true) :
    (∀ msg, Product.make code name features prices companyNit
        = .error (.invalidProduct msg) →
      register repo code name features prices companyNit
        = .error (.invalidProduct ("Failed to register product: " ++ msg))) ∧
    (∀ msg, Product.make code name features prices companyNit
        = .error (.invalidCompany msg) →
      register repo code name features prices companyNit
        = .error (.invalidProduct ("Failed to register product: " ++ msg))) ∧
    (∀ msg, Product.make code name features prices companyNit
        = .error (.invalidPrice msg) →
      register repo code name features prices companyNit = .error (.invalidPrice msg)) ∧
    (∀ p, Product.make code name features prices companyNit = .ok p →
      register repo code name features prices companyNit = .ok p) := by
  refine ⟨fun msg hmk => ?_, fun msg hmk => ?_, fun msg hmk => ?_, fun p hmk => ?_⟩ <;>
    simp [register, hex, hmk]

/-- C5 witness: a blank product code raises InvalidProductError "Code is
required" inside the constructor and register re-raises it with the
"Failed to register product: " prefix. -/
theorem register_wrapping_witness :
    register (fun _ => true) "" "N" [] [("USD", .money ⟨1, .USD⟩)] "NIT"
      = .error (.invalidProduct ("Failed to register product: " ++ "Code is required")) :=
  (register_wrapping (fun _ => true) "" "N" [] [("USD", .money ⟨1, .USD⟩)] "NIT" rfl).1
    "Code is required" (by decide)

/-- C5 counterexample: with an existing company and an empty prices mapping,
the constructor's InvalidPriceError escapes register unwrapped — the claim
that every constructor validation failure is re-raised as InvalidProductError
with the "Failed to register product" prefix is false. -/
theorem register_price_error_unwrapped :
    register (fun _ => true) "C" "N" [] [] "NIT"
      = .error (.invalidPrice "At least one price is required") ∧
    register (fun _ => true) "C" "N" [] [] "NIT"
      ≠ .error (.invalidProduct "Failed to register product: At least one price is required") := by
  constructor <;> decide

/-- C7 (amended): from_code returns the Currency whose code equals the
trimmed upper-cased input for USD, EUR and COP, and otherwise fails with the
Python builtin ValueError "Unsupported currency code: ..." — not with a
dedicated UnsupportedCurrencyError class, which the code base does not
define (no such class exists among the domain error classes). -/
theorem currency_fromCode_spec (code : String) :
    (pyUpper (pyStrip code) = "USD" → Currency.fromCode code = .ok .USD) ∧
    (pyUpper (pyStrip code) = "EUR" → Currency.fromCode code = .ok .EUR) ∧
    (pyUpper (pyStrip code) = "COP" → Currency.fromCode code = .ok .COP) ∧
    (pyUpper (pyStrip code) ∉ (["USD", "EUR", "COP"] : List String) →
      Currency.fromCode code
        = .error (.valueError ("Unsupported currency code: " ++ pyUpper (pyStrip code))) ∧
      Err.isDomainError
        (.valueError ("Unsupported currency code: " ++ pyUpper (pyStrip code))) = false) := by
  refine ⟨fun h => by simp [Currency.fromCode, h], fun h => by simp [Currency.fromCode, h],
    fun h => by simp [Currency.fromCode, h], fun h => ?_⟩
  simp only [List.mem_cons, List.mem_singleton, not_or] at h
  obtain ⟨h1, h2, h3⟩ := h
  refine ⟨by simp [Currency.fromCode, h1, h2, h3], rfl⟩

/-- C7 witness: " usd " normalizes to USD and parses; "XXX" fails with the
ValueError message. -/
theorem currency_fromCode_spec_witness :
    Currency.fromCode " usd " = .ok .USD ∧
    Currency.fromCode "XXX"
      = .error (.valueError "Unsupported currency code: XXX") := by
  constructor
  · exact (currency_fromCode_spec " usd ").1 (by decide)
  · have h := ((currency_fromCode_spec "XXX").2.2.2 (by decide)).1
    rw [h]
    decide

/-- C7 counterexample: an unrecognized code fails with the Python builtin
ValueError, which is not an instance of any error class of the domain error
module — in particular there is no UnsupportedCurrencyError. -/
theorem currency_fromCode_valueError :
    Currency.fromCode "ABC" = .error (.valueError "Unsupported currency code: ABC") ∧
    Err.isDomainError (.valueError "Unsupported currency code: ABC") = false := by
  constructor <;> decide

/-- C9: the Product constructor performs no consistency check between a
price key and the currency of its Money value — a prices mapping whose
"USD" key holds an EUR-denominated Money is accepted, and price_for "USD"
returns that EUR Money. -/
theorem product_key_currency_independent :
    Product.make "P" "N" [] [("USD", .money ⟨1, .EUR⟩)] "NIT"
      = .ok ⟨"P", "N", [], [("USD", ⟨1, .EUR⟩)], "NIT"⟩ ∧
    Product.priceFor ⟨"P", "N", [], [("USD", ⟨1, .EUR⟩)], "NIT"⟩ "USD" = .ok ⟨1, .EUR⟩ ∧
    Money.Valid ⟨1, .EUR⟩ ∧ Currency.EUR ≠ Currency.USD := by
  refine ⟨by decide, by decide, ⟨by norm_num, by norm_num [roundHalfUp2]⟩, by decide⟩

end Domain

namespace Domain

theorem removeFromInventory_saves_shape (s : InvRepos) (nit code : String) (qty : Int) :
    (removeFromInventory s nit code qty).2
      = match (removeFromInventory s nit code qty).1 with
        | .ok item => [item]
        | .error _ => [] := by
  unfold removeFromInventory
  split
  · rfl
  · split
    · rfl
    · split <;> rfl

theorem addToInventory_saves_shape (s : InvRepos) (nit code : String) (qty : Int) :
    (addToInventory s nit code qty).2
      = match (addToInventory s nit code qty).1 with
        | .ok item => [item]
        | .error _ => [] := by
  unfold addToInventory
  split
  · rfl
  · split
    · rfl
    · split
      · split <;> rfl
      · split <;> rfl

/-- C3: removing 10 from a stored quantity of 5 fails with
InvalidInventoryError "Insufficient stock" and performs no save, and in
general both add_to_inventory and remove_from_inventory save exactly the
resulting item once on success and save nothing on any failure path. -/
theorem inventory_no_partial_writes (s : InvRepos) (nit code : String) (qty : Int) :
    (∀ item, s.companyExists nit = true → s.invFind nit code = some item →
      item.quantity = 5 →
      removeFromInventory s nit code 10
        = (.error (.invalidInventory "Insufficient stock"), [])) ∧
    (∀ e, (removeFromInventory s nit code qty).1 = .error e →
      (removeFromInventory s nit code qty).2 = []) ∧
    (∀ item, (removeFromInventory s nit code qty).1 = .ok item →
      (removeFromInventory s nit code qty).2 = [item]) ∧
    (∀ e, (addToInventory s nit code qty).1 = .error e →
      (addToInventory s nit code qty).2 = []) ∧
    (∀ item, (addToInventory s nit code qty).1 = .ok item →
      (addToInventory s nit code qty).2 = [item]) := by
  refine ⟨?_, ?_, ?_, ?_, ?_⟩
  · intro item hcomp hfind hq5
    simp [removeFromInventory, hcomp, hfind, InventoryItem.decrease, hq5]
  · intro e he
    rw [removeFromInventory_saves_shape, he]
  · intro item hit
    rw [removeFromInventory_saves_shape, hit]
  · intro e he
    rw [addToInventory_saves_shape, he]
  · intro item hit
    rw [addToInventory_saves_shape, hit]

/-- C3 witness: a stored item with quantity 5 and a removal of 10 on a
concrete repository triple yields the insufficient-stock error with an empty
save list. -/
theorem inventory_no_partial_writes_witness :
    removeFromInventory ⟨fun _ => true, fun _ _ => true, fun _ _ => some ⟨"A", "B", 5⟩⟩
        "A" "B" 10
      = (.error (.invalidInventory "Insufficient stock"), []) :=
  (inventory_no_partial_writes
    ⟨fun _ => true, fun _ _ => true, fun _ _ => some ⟨"A", "B", 5⟩⟩ "A" "B" 10).1
    ⟨"A", "B", 5⟩ rfl rfl rfl

/-- C10: remove_from_inventory never consults the product repository — its
outcome is identical for any two product repositories — and removal succeeds
even when the product repository reports the product as non-existent,
provided a stored inventory item covers the request. -/
theorem remove_ignores_product_repo (crepo : String → Bool)
    (prepo1 prepo2 : String → String → Bool)
    (ifind : String → String → Option InventoryItem) (nit code : String) (qty : Int) :
    removeFromInventory ⟨crepo, prepo1, ifind⟩ nit code qty
      = removeFromInventory ⟨crepo, prepo2, ifind⟩ nit code qty ∧
    (∀ item, crepo nit = true → ifind nit code = some item → prepo1 code nit = false →
      item.Valid → 0 < qty → qty ≤ item.quantity →
      removeFromInventory ⟨crepo, prepo1, ifind⟩ nit code qty
        = (.ok ⟨item.company_nit, item.product_code, item.quantity - qty⟩,
           [⟨item.company_nit, item.product_code, item.quantity - qty⟩])) := by
  constructor
  · rfl
  · intro item hcomp hfind _ hvalid hq hqle
    simp [removeFromInventory, hcomp, hfind, InventoryItem.decrease, InventoryItem.make,
      not_le.mpr hq, not_lt.mpr hqle, hvalid.1, hvalid.2.1,
      not_lt.mpr (by omega : (0 : ℤ) ≤ item.quantity - qty)]

/-- C10 witness: with a product repository that always answers false,
removing 2 from a stored quantity of 5 still succeeds with quantity 3. -/
theorem remove_ignores_product_repo_witness :
    removeFromInventory ⟨fun _ => true, fun _ _ => false, fun _ _ => some ⟨"A", "B", 5⟩⟩
        "A" "B" 2
      = (.ok ⟨"A", "B", 3⟩, [⟨"A", "B", 3⟩]) := by
  have h := (remove_ignores_product_repo (fun _ => true) (fun _ _ => false)
    (fun _ _ => true) (fun _ _ => some ⟨"A", "B", 5⟩) "A" "B" 2).2
    ⟨"A", "B", 5⟩ rfl rfl rfl ⟨by decide, by decide, by decide⟩ (by decide) (by decide)
  rw [h]
  norm_num

/-- C1: add_to_inventory, once the company and product existence checks
pass: on a fresh pair it creates and saves a new item with exactly the
requested quantity (0 permitted, negative rejected by the constructor); on
an existing item it saves quantity N+q via increase, which fails with
InvalidInventoryError for q ≤ 0; and two sequential adds of 5 then 3 on a
fresh pair leave a persisted quantity of 8. -/
theorem add_to_inventory_spec (s : InvRepos) (nit code : String) (qty : Int)
    (hcomp : s.companyExists nit = true) (hprod : s.productExists code nit = true) :
    (s.invFind nit code = none → pyBlank nit = false → pyBlank code = false →
      (0 ≤ qty → addToInventory s nit code qty
        = (.ok ⟨nit, code, qty⟩, [⟨nit, code, qty⟩])) ∧
      (qty < 0 → addToInventory s nit code qty
        = (.error (.invalidInventory "Quantity cannot be negative"), []))) ∧
    (∀ item, s.invFind nit code = some item → item.Valid →
      (0 < qty → addToInventory s nit code qty
        = (.ok ⟨item.company_nit, item.product_code, item.quantity + qty⟩,
           [⟨item.company_nit, item.product_code, item.quantity + qty⟩])) ∧
      (qty ≤ 0 → addToInventory s nit code qty
        = (.error (.invalidInventory "Increment must be positive"), []))) ∧
    (s.invFind nit code = none → pyBlank nit = false → pyBlank code = false →
      addToInventory s nit code 5 = (.ok ⟨nit, code, 5⟩, [⟨nit, code, 5⟩]) ∧
      addToInventory ⟨s.companyExists, s.productExists, upsert s.invFind ⟨nit, code, 5⟩⟩
          nit code 3
        = (.ok ⟨nit, code, 8⟩, [⟨nit, code, 8⟩]) ∧
      upsert (upsert s.invFind ⟨nit, code, 5⟩) ⟨nit, code, 8⟩ nit code
        = some ⟨nit, code, 8⟩) := by
  have hfresh : ∀ q : Int, s.invFind nit code = none → pyBlank nit = false →
      pyBlank code = false → 0 ≤ q →
      addToInventory s nit code q = (.ok ⟨nit, code, q⟩, [⟨nit, code, q⟩]) := by
    intro q hfind hn hcode hq
    simp [addToInventory, hcomp, hprod, hfind, InventoryItem.make, hn, hcode,
      not_lt.mpr hq]
  refine ⟨fun hfind hn hcode => ⟨hfresh qty hfind hn hcode, ?_⟩, ?_, ?_⟩
  · intro hq
    simp [addToInventory, hcomp, hprod, hfind, InventoryItem.make, hn, hcode, hq]
  · intro item hfind hvalid
    constructor
    · intro hq
      obtain ⟨hv1, hv2, hv3⟩ := hvalid
      simp [addToInventory, hcomp, hprod, hfind, InventoryItem.increase,
        InventoryItem.make, not_le.mpr hq, hv1, hv2,
        not_lt.mpr (by omega : (0 : ℤ) ≤ item.quantity + qty)]
    · intro hq
      simp [addToInventory, hcomp, hprod, hfind, InventoryItem.increase, hq]
  · intro hfind hn hcode
    refine ⟨hfresh 5 hfind hn hcode (by norm_num), ?_, by simp [upsert]⟩
    simp [addToInventory, hcomp, hprod, upsert, InventoryItem.increase,
      InventoryItem.make, hn, hcode]

/-- C1 witness: on always-true existence checks and an initially empty
inventory, adding 5 then (after the upsert of the first save) 3 yields
persisted quantity 8, and an initial add of 0 creates a zero-stock record. -/
theorem add_to_inventory_spec_witness :
    addToInventory ⟨fun _ => true, fun _ _ => true, fun _ _ => none⟩
        "123456789" "PROD001" 5
      = (.ok ⟨"123456789", "PROD001", 5⟩, [⟨"123456789", "PROD001", 5⟩]) ∧
    addToInventory ⟨fun _ => true, fun _ _ => true,
        upsert (fun _ _ => none) ⟨"123456789", "PROD001", 5⟩⟩ "123456789" "PROD001" 3
      = (.ok ⟨"123456789", "PROD001", 8⟩, [⟨"123456789", "PROD001", 8⟩]) ∧
    addToInventory ⟨fun _ => true, fun _ _ => true, fun _ _ => none⟩
        "123456789" "PROD001" 0
      = (.ok ⟨"123456789", "PROD001", 0⟩, [⟨"123456789", "PROD001", 0⟩]) := by
  have h := (add_to_inventory_spec ⟨fun _ => true, fun _ _ => true, fun _ _ => none⟩
    "123456789" "PROD001" 0 rfl rfl).2.2 rfl (by decide) (by decide)
  have h0 := ((add_to_inventory_spec ⟨fun _ => true, fun _ _ => true, fun _ _ => none⟩
    "123456789" "PROD001" 0 rfl rfl).1 rfl (by decide) (by decide)).1 (by norm_num)
  exact ⟨h.1, h.2.1, h0⟩

end Domain
